import Mathlib

/-!
Verification of the Sunflower Land automation module (`sunflower_bot.py`).

The module is embedded shallowly:

* Python values flowing through the bot (JSON farm data, inventory
  snapshots, tree entries) are modelled by the inductive type `PyVal`;
  dictionaries are association lists with string keys, read via first
  match (Python dict literals have unique keys).
* Python floats are modelled by `Rat`; every coercion performed by the
  program is exact (`float()` applied to small integers).
* Fallible Python operations are modelled in `Except String`: the
  `.get` method raises `AttributeError` on non-mappings, `in` raises
  `TypeError` on non-containers, `float()` raises on non-numeric
  values (numeric strings holding an optionally signed integer literal
  are modelled as parsing; other strings as raising, which is the only
  shape of numeric string this program could meet), iteration raises
  `TypeError` on non-iterables, and `>` against an integer literal
  raises `TypeError` on non-numeric operands.
* The browser boundary (Playwright) is modelled as an emitted event
  trace: launching a persistent context, navigating to the game page,
  mouse clicks and closing the context each append an `Event`.  The
  browser primitives themselves are assumed to succeed, so `run_bot`
  returns either an error raised before the session starts or the
  complete trace of browser interactions.
* `fetch_farm_data` performs one HTTP GET; its decoded response is
  modelled as the `farm_data` argument handed to `run_bot`.
-/

set_option autoImplicit false

namespace SunflowerBot

/-- Dynamic Python values reaching the bot: ints, floats, bools, strings,
lists, string-keyed dicts and `None`. -/
inductive PyVal where
  | int : Int → PyVal
  | float : Rat → PyVal
  | bool : Bool → PyVal
  | str : String → PyVal
  | list : List PyVal → PyVal
  | dict : List (String × PyVal) → PyVal
  | none : PyVal

/-- First-match lookup in an association list, the reading model of a
Python dict with unique keys. -/
def assocGet {α : Type} (kvs : List (String × α)) (k : String) : Option α :=
  match kvs with
  | [] => Option.none
  | (k2, v) :: rest => if k2 = k then some v else assocGet rest k

/-- Tests `isinstance(v, Mapping)`. -/
def PyVal.isDict : PyVal → Bool
  | .dict _ => true
  | _ => false

/-- Numeric view used by Python comparison and coercion: ints, floats and
bools (bools are ints in Python) have numeric values; nothing else does. -/
def PyVal.asNum : PyVal → Option Rat
  | .int n => some (n : Rat)
  | .float q => some q
  | .bool b => some (if b then 1 else 0)
  | _ => Option.none

/-- Python `float(s)` on a string: parses an optionally signed integer
literal, raises `ValueError` otherwise. -/
def strToFloat (s : String) : Except String Rat :=
  match s.toNat? with
  | some n => .ok (n : Rat)
  | Option.none =>
    if s.startsWith "-" then
      match (s.drop 1).toNat? with
      | some n => .ok (-(n : Rat))
      | Option.none => .error "ValueError"
    else .error "ValueError"

/-- Python `float(v)`: exact on ints, floats and bools, parses integer
strings, raises `TypeError` on lists, dicts and `None`. -/
def pyFloat : PyVal → Except String Rat
  | .int n => .ok (n : Rat)
  | .float q => .ok q
  | .bool b => .ok (if b then 1 else 0)
  | .str s => strToFloat s
  | _ => .error "TypeError"

/-- Python `obj.get(key, dflt)`: safe lookup on a dict, `AttributeError`
when `obj` is not a mapping (lists, strings, numbers and `None` have no
`.get` method). -/
def pyGet (obj : PyVal) (key : String) (dflt : PyVal) : Except String PyVal :=
  match obj with
  | .dict kvs => .ok ((assocGet kvs key).getD dflt)
  | _ => .error "AttributeError"

/-- Membership of a string needle in a list of Python values: only equal
strings match (Python `==` between a `str` and a non-`str` is `False`). -/
def containsStr (xs : List PyVal) (k : String) : Bool :=
  xs.any fun v => match v with | .str s => decide (s = k) | _ => false

/-- Python `key in container` for a string `key`: key test on dicts,
membership on lists, substring test on strings, `TypeError` otherwise. -/
def pyContains (container : PyVal) (key : String) : Except String Bool :=
  match container with
  | .dict kvs => .ok (assocGet kvs key).isSome
  | .list xs => .ok (containsStr xs key)
  | .str s => .ok (decide ((s.splitOn key).length > 1))
  | _ => .error "TypeError"

/-- Python `container[key]` for a string `key`: lookup on a dict
(`KeyError` when absent), `TypeError` on every other type (list and
string subscripts must be integers). -/
def pyGetItem (container : PyVal) (key : String) : Except String PyVal :=
  match container with
  | .dict kvs =>
    match assocGet kvs key with
    | some v => .ok v
    | Option.none => .error "KeyError"
  | _ => .error "TypeError"

/-- Python iteration `for x in v`: elements of a list, keys of a dict,
characters of a string, `TypeError` on numbers and `None`. -/
def pyIter : PyVal → Except String (List PyVal)
  | .list xs => .ok xs
  | .dict kvs => .ok (kvs.map fun kv => PyVal.str kv.1)
  | .str s => .ok (s.toList.map fun c => PyVal.str (String.singleton c))
  | _ => .error "TypeError"

/-- Python `a > b` as used by the purchase policy, where `b` is an integer
literal: numeric comparison when both operands are numeric, `TypeError`
otherwise (a string or container compared against an int raises). -/
def pyGt (a b : PyVal) : Except String Bool :=
  match a.asNum, b.asNum with
  | some x, some y => .ok (decide (x > y))
  | _, _ => .error "TypeError"

/-- Group of resources of one type, `ResourceGroup` of the source. -/
structure ResourceGroup where
  resource_type : String
  coordinates : List (Rat × Rat)
deriving DecidableEq, Repr

/-- Shared coordinate-reading expression of `_extract_coordinate`:
`float(o.get("x", 0)), float(o.get("y", 0))`, evaluated left to right,
appearing once for the nested sub-mapping and once for the entry itself. -/
def coordinateOf (o : PyVal) : Except String (Rat × Rat) := do
  let xv ← pyGet o "x" (.int 0)
  let x ← pyFloat xv
  let yv ← pyGet o "y" (.int 0)
  let y ← pyFloat yv
  return (x, y)

/-- Embeds `_extract_coordinate`: when `"coordinates" in tree_like` holds
and `tree_like["coordinates"]` is a mapping, read `x`/`y` from that
sub-mapping; otherwise read `x`/`y` from the entry itself, each axis
defaulting to `0`. -/
def _extract_coordinate (tree_like : PyVal) : Except String (Rat × Rat) := do
  let hasKey ← pyContains tree_like "coordinates"
  if hasKey then
    let c ← pyGetItem tree_like "coordinates"
    if c.isDict then
      let data ← pyGetItem tree_like "coordinates"
      coordinateOf data
    else
      coordinateOf tree_like
  else
    coordinateOf tree_like

/-- One loop step of `parse_resource_groups`:
`grouped.setdefault("trees", ResourceGroup("trees", [])).coordinates.append(c)`. -/
def appendCoord (grouped : List (String × ResourceGroup)) (c : Rat × Rat) :
    List (String × ResourceGroup) :=
  match grouped with
  | [] => [("trees", ⟨"trees", [c]⟩)]
  | (k, g) :: rest =>
    if k = "trees" then (k, ⟨g.resource_type, g.coordinates ++ [c]⟩) :: rest
    else (k, g) :: appendCoord rest c

/-- Loop of `parse_resource_groups` (`for tree in trees: ...`), carrying
the `grouped` accumulator. -/
def parseLoop (elems : List PyVal) (grouped : List (String × ResourceGroup)) :
    Except String (List (String × ResourceGroup)) :=
  match elems with
  | [] => .ok grouped
  | tree :: rest => do
    let coords ← _extract_coordinate tree
    parseLoop rest (appendCoord grouped coords)

/-- Embeds `parse_resource_groups`: read `farm_data.get("trees", [])` when
`farm_data` is a mapping (else `[]`), iterate the collection, extract a
coordinate from each entry and accumulate into the `"trees"` group. -/
def parse_resource_groups (farm_data : PyVal) :
    Except String (List (String × ResourceGroup)) := do
  let trees :=
    match farm_data with
    | .dict kvs => (assocGet kvs "trees").getD (.list [])
    | _ => .list []
  let elems ← pyIter trees
  parseLoop elems []

/-- Embeds `should_purchase_axes`:
`inventory.get("axes", 0) > 10 or inventory.get("gold", 0) > 500`, with
the short-circuit of Python `or`. -/
def should_purchase_axes (inventory : PyVal) : Except String Bool := do
  let axes ← pyGet inventory "axes" (.int 0)
  let gold ← pyGet inventory "gold" (.int 0)
  let c1 ← pyGt axes (.int 10)
  if c1 then
    pure true
  else
    pyGt gold (.int 500)

/-- Observable browser interactions of one run, in emission order. -/
inductive Event where
  | contextCreated : String → Event
  | goto : String → Event
  | click : Rat × Rat → Event
  | contextClosed : Event
deriving DecidableEq, Repr

/-- Fixed game URL navigated to by `go_to_game`. -/
def gameUrl : String := "https://sunflower-land.com/play/"

/-- Embeds `create_browser_context`: launches the persistent context for
the given profile directory (one event; viewport and headless flags have
no observable effect on the trace). -/
def create_browser_context (profile_dir : String) : List Event :=
  [.contextCreated profile_dir]

/-- Embeds `go_to_game`: opens a page and navigates to the game URL. -/
def go_to_game : List Event := [.goto gameUrl]

/-- Embeds `click_store_for_axes`: one mouse click at the store
coordinate. -/
def click_store_for_axes (store_coordinate : Rat × Rat) : List Event :=
  [.click store_coordinate]

/-- Embeds `chop_trees`: for each coordinate in sequence order, three
mouse clicks (`for _ in range(3)`). -/
def chop_trees : List (Rat × Rat) → List Event
  | [] => []
  | c :: rest => ((List.range 3).map fun _ => Event.click c) ++ chop_trees rest

/-- Embeds `run_bot` given the decoded farm data returned by
`fetch_farm_data`: classify resources, evaluate the purchase policy
(early return on `False`), early return when the `"trees"` group is
empty, otherwise create the browser context, navigate, click the store
once, chop each tree and close the context. -/
def run_bot (farm_data : PyVal) (profile_dir : String)
    (store_coordinate : Rat × Rat) (inventory : PyVal) :
    Except String (List Event) := do
  let resources ← parse_resource_groups farm_data
  let purchase ← should_purchase_axes inventory
  if !purchase then
    pure []
  else
    let tree_coordinates := ((assocGet resources "trees").getD ⟨"trees", []⟩).coordinates
    if tree_coordinates.isEmpty then
      pure []
    else
      pure (create_browser_context profile_dir ++ go_to_game
        ++ click_store_for_axes store_coordinate
        ++ chop_trees tree_coordinates ++ [Event.contextClosed])

/-- Coordinate extraction applied to each entry in order, the closed form
of the parse loop. -/
def extractAll : List PyVal → Except String (List (Rat × Rat))
  | [] => .ok []
  | e :: es => do
    let c ← _extract_coordinate e
    let cs ← extractAll es
    pure (c :: cs)

/-- Tests whether `float()` succeeds on a value. -/
def floatable (v : PyVal) : Bool :=
  match pyFloat v with
  | .ok _ => true
  | .error _ => false

/-- Tree entries on which extraction only defaults and never raises: a
mapping whose coordinate fields, read on whichever schema applies, are
floatable or absent. -/
def entryBenign (e : PyVal) : Bool :=
  match e with
  | .dict kvs =>
    match assocGet kvs "coordinates" with
    | some (.dict d) =>
      floatable ((assocGet d "x").getD (.int 0))
        && floatable ((assocGet d "y").getD (.int 0))
    | _ =>
      floatable ((assocGet kvs "x").getD (.int 0))
        && floatable ((assocGet kvs "y").getD (.int 0))
  | _ => false

@[simp]
theorem except_bind_ok {α β : Type} (a : α) (f : α → Except String β) :
    (Except.ok a >>= f) = f a := rfl

@[simp]
theorem except_pure_ok {α : Type} (a : α) :
    (Except.pure a : Except String α) = Except.ok a := rfl

@[simp]
theorem except_bind_error {α β : Type} (e : String) (f : α → Except String β) :
    ((Except.error e : Except String α) >>= f) = Except.error e := rfl

theorem chop_trees_length (coords : List (Rat × Rat)) :
    (chop_trees coords).length = 3 * coords.length := by
  induction coords with
  | nil => rfl
  | cons c rest ih =>
    simp [chop_trees, ih]
    ring

theorem appendCoord_trees (pre : List (Rat × Rat)) (c : Rat × Rat) :
    appendCoord [("trees", ⟨"trees", pre⟩)] c
      = [("trees", ⟨"trees", pre ++ [c]⟩)] := by
  simp [appendCoord]

theorem parseLoop_extractAll (es : List PyVal) (pre cs : List (Rat × Rat))
    (h : extractAll es = .ok cs) :
    parseLoop es [("trees", ⟨"trees", pre⟩)]
      = .ok [("trees", ⟨"trees", pre ++ cs⟩)] := by
  induction es generalizing pre cs with
  | nil =>
    simp [extractAll] at h
    subst h
    simp [parseLoop]
  | cons e rest ih =>
    simp only [extractAll] at h
    cases he : _extract_coordinate e with
    | error err => rw [he] at h; simp at h
    | ok c =>
      rw [he] at h
      cases hr : extractAll rest with
      | error err => rw [hr] at h; simp at h
      | ok cs2 =>
        rw [hr] at h
        simp only [except_bind_ok, pure] at h
        cases h
        simp only [parseLoop, he, except_bind_ok, appendCoord_trees]
        rw [ih (pre ++ [c]) cs2 hr]
        simp

theorem extractAll_length (es : List PyVal) (cs : List (Rat × Rat))
    (h : extractAll es = .ok cs) : cs.length = es.length := by
  induction es generalizing cs with
  | nil => simp [extractAll] at h; subst h; rfl
  | cons e rest ih =>
    simp only [extractAll] at h
    cases he : _extract_coordinate e with
    | error err => rw [he] at h; simp at h
    | ok c =>
      rw [he] at h
      cases hr : extractAll rest with
      | error err => rw [hr] at h; simp at h
      | ok cs2 =>
        rw [hr] at h
        simp only [except_bind_ok, pure] at h
        cases h
        simp [ih cs2 hr]

theorem pyFloat_ok_of_floatable (v : PyVal) (h : floatable v = true) :
    ∃ q, pyFloat v = .ok q := by
  unfold floatable at h
  cases hv : pyFloat v with
  | ok q => exact ⟨q, rfl⟩
  | error e => rw [hv] at h; simp at h

theorem coordinateOf_ok (kvs : List (String × PyVal))
    (hx : floatable ((assocGet kvs "x").getD (.int 0)) = true)
    (hy : floatable ((assocGet kvs "y").getD (.int 0)) = true) :
    ∃ c, coordinateOf (.dict kvs) = .ok c := by
  obtain ⟨x, hxq⟩ := pyFloat_ok_of_floatable _ hx
  obtain ⟨y, hyq⟩ := pyFloat_ok_of_floatable _ hy
  exact ⟨(x, y), by simp [coordinateOf, pyGet, hxq, hyq, pure]⟩

theorem extract_ok_of_benign (e : PyVal) (h : entryBenign e = true) :
    ∃ c, _extract_coordinate e = .ok c := by
  cases e
  case dict kvs =>
    simp only [entryBenign] at h
    cases hco : assocGet kvs "coordinates" with
    | none =>
      rw [hco] at h
      simp only [Bool.and_eq_true] at h
      obtain ⟨c, hc⟩ := coordinateOf_ok kvs h.1 h.2
      exact ⟨c, by simp [_extract_coordinate, pyContains, hco, hc]⟩
    | some v =>
      cases v
      case dict d =>
        rw [hco] at h
        simp only [Bool.and_eq_true] at h
        obtain ⟨c, hc⟩ := coordinateOf_ok d h.1 h.2
        exact ⟨c, by
          simp [_extract_coordinate, pyContains, pyGetItem, hco, PyVal.isDict, hc]⟩
      all_goals
        rw [hco] at h
        simp only [Bool.and_eq_true] at h
        obtain ⟨c, hc⟩ := coordinateOf_ok kvs h.1 h.2
        exact ⟨c, by
          simp [_extract_coordinate, pyContains, pyGetItem, hco, PyVal.isDict, hc]⟩
  all_goals simp [entryBenign] at h

theorem parseLoop_ok_of_benign (es : List PyVal)
    (acc : List (String × ResourceGroup))
    (h : ∀ e ∈ es, entryBenign e = true) :
    ∃ r, parseLoop es acc = .ok r := by
  induction es generalizing acc with
  | nil => exact ⟨acc, rfl⟩
  | cons e rest ih =>
    obtain ⟨c, hc⟩ := extract_ok_of_benign e (h e (by simp))
    obtain ⟨r, hr⟩ := ih (appendCoord acc c) (fun x hx => h x (by simp [hx]))
    exact ⟨r, by simp [parseLoop, hc, hr]⟩

/-- C1: for every inventory mapping whose `"axes"` and `"gold"` entries
are numeric or absent (absent entries defaulting to 0 via safe lookup),
`should_purchase_axes` returns `true` if and only if the axes count
exceeds 10 or the gold count exceeds 500. -/
theorem purchase_policy_iff (kvs : List (String × PyVal)) (a g : Rat)
    (ha : ((assocGet kvs "axes").getD (.int 0)).asNum = some a)
    (hg : ((assocGet kvs "gold").getD (.int 0)).asNum = some g) :
    should_purchase_axes (.dict kvs) = .ok (decide (a > 10 ∨ g > 500)) := by
  have h10 : (PyVal.int 10).asNum = some (10 : Rat) := by
    simp [PyVal.asNum]
  have h500 : (PyVal.int 500).asNum = some (500 : Rat) := by
    simp [PyVal.asNum]
  simp only [should_purchase_axes, pyGet, except_bind_ok, pyGt, ha, hg,
    h10, h500]
  by_cases hA : (10 : Rat) < a <;> by_cases hG : (500 : Rat) < g <;>
    simp [hA, hG, pure, GT.gt]

/-- Witness for C1: the inventory with 11 axes and 0 gold triggers the
purchase. -/
theorem purchase_policy_iff_checked :
    should_purchase_axes (.dict [("axes", PyVal.int 11), ("gold", PyVal.int 0)])
      = .ok true := by
  have h := purchase_policy_iff [("axes", PyVal.int 11), ("gold", PyVal.int 0)]
    11 0 rfl rfl
  rw [h]
  norm_num

/-- C5: the flat schema and the nested schema yield identical extraction
results for every pair of values, and both concrete example entries yield
the coordinate (3, 4). -/
theorem extract_coordinate_schema_equiv (xv yv : PyVal) :
    _extract_coordinate (.dict [("x", xv), ("y", yv)])
      = _extract_coordinate (.dict [("coordinates", .dict [("x", xv), ("y", yv)])])
    ∧ _extract_coordinate (.dict [("x", PyVal.int 3), ("y", PyVal.int 4)])
      = .ok (3, 4)
    ∧ _extract_coordinate
        (.dict [("coordinates", PyVal.dict [("x", PyVal.int 3), ("y", PyVal.int 4)])])
      = .ok (3, 4) :=
  ⟨rfl, rfl, rfl⟩

/-- C6: a mapping entry carrying neither a nested `"coordinates"`
sub-mapping nor top-level `"x"`/`"y"` keys extracts the default
coordinate (0, 0); each absent axis also defaults to 0 individually. -/
theorem extract_coordinate_defaults (kvs : List (String × PyVal))
    (hco : ∀ v, assocGet kvs "coordinates" = some v → v.isDict = false)
    (hx : assocGet kvs "x" = Option.none)
    (hy : assocGet kvs "y" = Option.none) :
    _extract_coordinate (.dict kvs) = .ok (0, 0)
    ∧ _extract_coordinate (.dict [("x", PyVal.int 3)]) = .ok (3, 0)
    ∧ _extract_coordinate (.dict [("y", PyVal.int 4)]) = .ok (0, 4) := by
  refine ⟨?_, rfl, rfl⟩
  have hflat : coordinateOf (.dict kvs) = .ok (0, 0) := by
    simp [coordinateOf, pyGet, hx, hy, pyFloat, pure]
  cases hc : assocGet kvs "coordinates" with
  | none => simp [_extract_coordinate, pyContains, hc, hflat]
  | some v =>
    have hv := hco v hc
    simp [_extract_coordinate, pyContains, pyGetItem, hc, hv, hflat]

/-- Witness for C6: an entry holding only an unrelated field extracts to
(0, 0). -/
theorem extract_coordinate_defaults_checked :
    _extract_coordinate (.dict [("name", PyVal.str "oak")]) = .ok (0, 0)
    ∧ _extract_coordinate (.dict [("x", PyVal.int 3)]) = .ok (3, 0)
    ∧ _extract_coordinate (.dict [("y", PyVal.int 4)]) = .ok (0, 4) :=
  extract_coordinate_defaults [("name", PyVal.str "oak")]
    (fun _ h => Option.noConfusion h) rfl rfl

/-- C7: a non-mapping input, or a mapping without a `"trees"` key,
classifies to the empty mapping and raises no error. -/
theorem parse_empty_without_trees (fd : PyVal)
    (h : fd.isDict = false ∨
      ∃ kvs, fd = .dict kvs ∧ assocGet kvs "trees" = Option.none) :
    parse_resource_groups fd = .ok [] := by
  cases h with
  | inl hnd =>
    cases fd
    case dict kvs => simp [PyVal.isDict] at hnd
    all_goals rfl
  | inr h2 =>
    obtain ⟨kvs, rfl, hk⟩ := h2
    simp [parse_resource_groups, hk, pyIter, parseLoop]

/-- Witness for C7: the integer 7 as farm data classifies to the empty
mapping. -/
theorem parse_empty_without_trees_checked :
    parse_resource_groups (.int 7) = .ok [] :=
  parse_empty_without_trees (.int 7) (Or.inl rfl)

/-- C10: a present but non-mapping `"coordinates"` value is ignored:
extraction falls back to the flat top-level `"x"`/`"y"` read, each
missing axis defaulting to 0. -/
theorem extract_coordinate_nonmapping_fallback (kvs : List (String × PyVal))
    (v : PyVal) (hc : assocGet kvs "coordinates" = some v)
    (hv : v.isDict = false) :
    _extract_coordinate (.dict kvs) = coordinateOf (.dict kvs)
    ∧ _extract_coordinate
        (.dict [("coordinates", PyVal.int 7), ("x", PyVal.int 3)])
      = .ok (3, 0) := by
  refine ⟨?_, rfl⟩
  simp [_extract_coordinate, pyContains, pyGetItem, hc, hv]

/-- Witness for C10: a string-valued `"coordinates"` field is ignored in
favour of the flat read. -/
theorem extract_coordinate_nonmapping_fallback_checked :
    _extract_coordinate
        (.dict [("coordinates", PyVal.str "bad"),
                ("x", PyVal.int 5), ("y", PyVal.int 6)])
      = coordinateOf
          (.dict [("coordinates", PyVal.str "bad"),
                  ("x", PyVal.int 5), ("y", PyVal.int 6)])
    ∧ _extract_coordinate
        (.dict [("coordinates", PyVal.int 7), ("x", PyVal.int 3)])
      = .ok (3, 0) :=
  extract_coordinate_nonmapping_fallback _ (PyVal.str "bad") rfl rfl

/-- C9: harvesting clicks three times per coordinate, iterating the
coordinates in sequence order: the trace is three identical clicks per
coordinate concatenated in order, its length is 3·n, and three
coordinates give exactly nine clicks. -/
theorem chop_trees_three_clicks_each (coords : List (Rat × Rat))
    (c1 c2 c3 : Rat × Rat) :
    chop_trees coords
      = coords.flatMap (fun c => List.replicate 3 (Event.click c))
    ∧ (chop_trees coords).length = 3 * coords.length
    ∧ chop_trees [c1, c2, c3]
      = [Event.click c1, Event.click c1, Event.click c1,
         Event.click c2, Event.click c2, Event.click c2,
         Event.click c3, Event.click c3, Event.click c3] := by
  refine ⟨?_, chop_trees_length coords, rfl⟩
  induction coords with
  | nil => rfl
  | cons c rest ih => simp [chop_trees, ih, List.replicate]

/-- C2: when the policy approves and the classified trees group is
non-empty, the run emits exactly: context creation, navigation, one
store click, the harvesting clicks (three per tree coordinate, in
classification order, 3·n clicks in total), then context close. -/
theorem run_bot_full_session_trace (fd : PyVal) (pd : String)
    (sc : Rat × Rat) (inv : PyVal) (r : List (String × ResourceGroup))
    (coords : List (Rat × Rat))
    (hr : parse_resource_groups fd = .ok r)
    (hc : ((assocGet r "trees").getD ⟨"trees", []⟩).coordinates = coords)
    (hne : coords ≠ [])
    (hp : should_purchase_axes inv = .ok true) :
    run_bot fd pd sc inv
      = .ok ([Event.contextCreated pd, Event.goto gameUrl, Event.click sc]
          ++ chop_trees coords ++ [Event.contextClosed])
    ∧ (chop_trees coords).length = 3 * coords.length := by
  refine ⟨?_, chop_trees_length coords⟩
  have hemp : coords.isEmpty = false := by
    cases coords with
    | nil => exact absurd rfl hne
    | cons c cs => rfl
  simp [run_bot, hr, hp, hc, hemp, hne, create_browser_context, go_to_game,
    click_store_for_axes, pure]

/-- Witness for C2: two trees and an inventory of 12 axes produce the
full ten-event trace with one store click and six harvest clicks. -/
theorem run_bot_full_session_trace_checked :
    run_bot
        (.dict [("trees", PyVal.list
          [PyVal.dict [("x", PyVal.int 1), ("y", PyVal.int 2)],
           PyVal.dict [("x", PyVal.int 3), ("y", PyVal.int 4)]])])
        "profile" (5, 6)
        (.dict [("axes", PyVal.int 12), ("gold", PyVal.int 0)])
      = .ok ([Event.contextCreated "profile", Event.goto gameUrl,
              Event.click (5, 6)]
          ++ chop_trees [(1, 2), (3, 4)] ++ [Event.contextClosed])
    ∧ (chop_trees [(1, 2), (3, 4)]).length = 3 * 2 := by
  have h := run_bot_full_session_trace
    (.dict [("trees", PyVal.list
      [PyVal.dict [("x", PyVal.int 1), ("y", PyVal.int 2)],
       PyVal.dict [("x", PyVal.int 3), ("y", PyVal.int 4)]])])
    "profile" (5, 6)
    (.dict [("axes", PyVal.int 12), ("gold", PyVal.int 0)])
    [("trees", ⟨"trees", [(1, 2), (3, 4)]⟩)] [(1, 2), (3, 4)]
    rfl rfl (by simp) rfl
  simpa using h

/-- C3: when the policy rejects the inventory, or the classified trees
group is empty, the run never creates a browser context and performs no
browser interaction: `run_bot` returns the empty trace, or propagates an
error raised before any session could start. -/
theorem run_bot_early_return (fd : PyVal) (pd : String) (sc : Rat × Rat)
    (inv : PyVal)
    (h : should_purchase_axes inv = .ok false ∨
      ∃ r, parse_resource_groups fd = .ok r ∧
        ((assocGet r "trees").getD ⟨"trees", []⟩).coordinates = []) :
    run_bot fd pd sc inv = .ok [] ∨
      ∃ e, run_bot fd pd sc inv = .error e := by
  cases hpr : parse_resource_groups fd with
  | error e => exact Or.inr ⟨e, by simp [run_bot, hpr]⟩
  | ok r =>
    cases h with
    | inl hp => exact Or.inl (by simp [run_bot, hpr, hp, pure])
    | inr h2 =>
      obtain ⟨r2, hr2, hcoords⟩ := h2
      rw [hpr] at hr2
      injection hr2 with h3
      subst h3
      cases hp : should_purchase_axes inv with
      | error e => exact Or.inr ⟨e, by simp [run_bot, hpr, hp]⟩
      | ok b =>
        cases b with
        | false => exact Or.inl (by simp [run_bot, hpr, hp, pure])
        | true => exact Or.inl (by simp [run_bot, hpr, hp, hcoords, pure])

/-- Witness for C3: an inventory of 2 axes and 10 gold yields a run with
no browser events. -/
theorem run_bot_early_return_checked :
    run_bot (.dict []) "profile" (0, 0)
        (.dict [("axes", PyVal.int 2), ("gold", PyVal.int 10)]) = .ok []
    ∨ ∃ e, run_bot (.dict []) "profile" (0, 0)
        (.dict [("axes", PyVal.int 2), ("gold", PyVal.int 10)]) = .error e :=
  run_bot_early_return _ _ _ _ (Or.inl rfl)

/-- C8: when the `"trees"` field is a list of n entries each yielding a
coordinate, classification returns at most the single `"trees"` group —
the empty mapping for n = 0, and otherwise that group holds exactly the
n coordinates extracted one from each entry, in encounter order. -/
theorem parse_groups_trees_in_order (kvs : List (String × PyVal))
    (entries : List PyVal) (coords : List (Rat × Rat))
    (ht : assocGet kvs "trees" = some (.list entries))
    (he : extractAll entries = .ok coords) :
    parse_resource_groups (.dict kvs)
      = .ok (if entries.isEmpty then []
             else [("trees", ⟨"trees", coords⟩)])
    ∧ coords.length = entries.length := by
  refine ⟨?_, extractAll_length entries coords he⟩
  cases entries with
  | nil =>
    simp [extractAll] at he
    subst he
    simp [parse_resource_groups, ht, pyIter, parseLoop]
  | cons e rest =>
    simp only [extractAll] at he
    cases hce : _extract_coordinate e with
    | error err => rw [hce] at he; simp at he
    | ok c =>
      rw [hce] at he
      cases hre : extractAll rest with
      | error err => rw [hre] at he; simp at he
      | ok cs2 =>
        rw [hre] at he
        simp only [except_bind_ok, except_pure_ok] at he
        cases he
        simp only [parse_resource_groups, ht, Option.getD_some, pyIter,
          except_bind_ok, List.isEmpty_cons, Bool.false_eq_true, if_false,
          parseLoop, hce]
        have happ : appendCoord [] c = [("trees", ⟨"trees", [c]⟩)] := rfl
        rw [happ, parseLoop_extractAll rest [c] cs2 hre]
        simp

/-- Witness for C8: two entries, one per schema, classify to the single
trees group holding both coordinates in order. -/
theorem parse_groups_trees_in_order_checked :
    parse_resource_groups (.dict [("trees", PyVal.list
        [PyVal.dict [("x", PyVal.int 1), ("y", PyVal.int 2)],
         PyVal.dict [("coordinates",
           PyVal.dict [("x", PyVal.int 3), ("y", PyVal.int 4)])]])])
      = .ok [("trees", ⟨"trees", [(1, 2), (3, 4)]⟩)]
    ∧ ([(1, 2), (3, 4)] : List (Rat × Rat)).length = 2 := by
  have h := parse_groups_trees_in_order
    [("trees", PyVal.list
      [PyVal.dict [("x", PyVal.int 1), ("y", PyVal.int 2)],
       PyVal.dict [("coordinates",
         PyVal.dict [("x", PyVal.int 3), ("y", PyVal.int 4)])]])]
    [PyVal.dict [("x", PyVal.int 1), ("y", PyVal.int 2)],
     PyVal.dict [("coordinates",
       PyVal.dict [("x", PyVal.int 3), ("y", PyVal.int 4)])]]
    [(1, 2), (3, 4)] rfl rfl
  simpa using h

/-- Counterexample to C4 as stated: on farm data whose `"trees"` field
is the integer 5, the classification loop iterates a non-iterable value
and raises `TypeError` instead of tolerating the malformed field. -/
theorem parse_raises_on_nonlist_trees :
    parse_resource_groups (.dict [("trees", PyVal.int 5)])
      = .error "TypeError" := rfl

/-- C4 amended: classification raises no error — malformed or missing
fields defaulting silently, with affected coordinates or groups simply
defaulting or ending up empty — whenever the farm data is not a mapping,
lacks a `"trees"` key, or carries a `"trees"` list all of whose entries
are mappings whose read coordinate fields are floatable or absent. -/
theorem parse_tolerates_benign_malformed (fd : PyVal)
    (h : fd.isDict = false ∨ ∃ kvs, fd = .dict kvs ∧
      (assocGet kvs "trees" = Option.none ∨
       ∃ es, assocGet kvs "trees" = some (.list es) ∧
         ∀ e ∈ es, entryBenign e = true)) :
    ∃ r, parse_resource_groups fd = .ok r := by
  cases h with
  | inl hnd =>
    cases fd
    case dict kvs => simp [PyVal.isDict] at hnd
    all_goals exact ⟨[], rfl⟩
  | inr h2 =>
    obtain ⟨kvs, rfl, hk⟩ := h2
    cases hk with
    | inl hnone =>
      exact ⟨[], by simp [parse_resource_groups, hnone, pyIter, parseLoop]⟩
    | inr h3 =>
      obtain ⟨es, hes, hben⟩ := h3
      obtain ⟨r, hr⟩ := parseLoop_ok_of_benign es [] hben
      exact ⟨r, by simp [parse_resource_groups, hes, pyIter, hr]⟩

/-- Witness for the amended C4: entries with a missing coordinate form,
a numeric `"coordinates"` value and an empty nested mapping all classify
without error. -/
theorem parse_tolerates_benign_malformed_checked :
    ∃ r, parse_resource_groups (.dict [("trees", PyVal.list
        [PyVal.dict [],
         PyVal.dict [("coordinates", PyVal.int 9)],
         PyVal.dict [("coordinates", PyVal.dict []),
                     ("y", PyVal.bool true)]])])
      = .ok r :=
  parse_tolerates_benign_malformed _
    (Or.inr ⟨_, rfl, Or.inr ⟨_, rfl, by decide⟩⟩)

end SunflowerBot
